import Mathlib

/-!
Shallow embedding of router/src/completion.rs of the
text-generation-inference repository: the OpenAI-compatibility adapter
layer (request normalization, chat templating, response synthesis and
streaming event building).

Modelling conventions:
* f32 request fields are modelled as rationals; u32/u64/usize fields as
  Nat, reduced modulo 2 ^ 32 exactly where the compiled source performs
  u32 arithmetic or a usize-to-u32 cast (release-profile wrapping
  semantics).
* The source obtains the current Unix time in seconds via
  create_timestamp at synthesis time; since that is an effect, the
  synthesis functions here take the obtained timestamp as an explicit
  created_time argument, exactly as the streaming builders of the
  source already do.
* Types defined in the crate root (FinishReason, Token, StreamDetails,
  GenerateResponse, Info, GenerateParameters, GenerateRequest) are not
  part of the given source file; they are modelled from the spec, with
  field names fixed by their uses and construction sites in the given
  source file.
-/

/-- Modelled from the spec: FinishReason is an external enumeration
(length limit, stop sequence, end of sequence) defined outside the given
source file and passed through this layer unchanged. -/
inductive FinishReason where
  | Length
  | StopSequence
  | EndOfSequence
deriving DecidableEq, Repr

/-- Modelled from the spec: one prefill token of the native response
details; this layer only reads the length of the prefill list. -/
structure PrefillToken where
  id : Nat
  text : String
deriving DecidableEq, Repr

/-- Modelled from the spec: the details record of a native
GenerateResponse — generated-token count (u32), finish reason, prefill
token list. -/
structure Details where
  generated_tokens : Nat
  finish_reason : FinishReason
  prefill : List PrefillToken
deriving DecidableEq, Repr

/-- Modelled from the spec: the native GenerateResponse — generated text
plus an optional details record. -/
structure GenerateResponse where
  generated_text : String
  details : Option Details
deriving DecidableEq, Repr

/-- Modelled from the spec: the per-fragment detail record of the native
token stream, carrying the finish reason. -/
structure StreamDetails where
  finish_reason : FinishReason
deriving DecidableEq, Repr

/-- Modelled from the spec: one produced token fragment; this layer uses
its text. -/
structure Token where
  id : Nat
  text : String
deriving DecidableEq, Repr

/-- Modelled from the spec: the process-wide info provider; this layer
reads the model identifier from it. -/
structure Info where
  model_id : String
deriving DecidableEq, Repr

/-- Modelled from the spec: native sampling/decoding configuration
(GenerateParameters of the crate root); the field set is fixed by the
two construction sites in the given source file. -/
structure GenerateParameters where
  best_of : Option Nat
  temperature : Option ℚ
  repetition_penalty : Option ℚ
  top_k : Option Int
  top_p : Option ℚ
  typical_p : Option ℚ
  do_sample : Bool
  max_new_tokens : Nat
  return_full_text : Option Bool
  stop : List String
  truncate : Option Nat
  watermark : Bool
  details : Bool
  decoder_input_details : Bool
  seed : Option Nat
deriving DecidableEq, Repr

/-- Modelled from the spec: the native generate request — an input
prompt string and a GenerateParameters value. -/
structure GenerateRequest where
  inputs : String
  parameters : GenerateParameters
deriving DecidableEq, Repr

/-- CompatCompletionRequest of the source: an OpenAI-style completion
request body after boundary deserialization. -/
structure CompatCompletionRequest where
  prompt : String
  best_of : Option Nat
  temperature : Option ℚ
  presence_penalty : Option ℚ
  top_k : Option Int
  top_p : Option ℚ
  typical_p : Option ℚ
  do_sample : Bool
  max_tokens : Nat
  echo : Option Bool
  stop : List String
  truncate : Option Nat
  watermark : Bool
  decoder_input_details : Bool
  seed : Option Nat
  stream : Bool
deriving DecidableEq, Repr

/-- ChatRole of the source: closed role enumeration. -/
inductive ChatRole where
  | User
  | Assistant
  | System
deriving DecidableEq, Repr

/-- ChatFormatterPrePost of the source: one prefix/suffix string pair. -/
structure ChatFormatterPrePost where
  pre : String
  post : String
deriving DecidableEq, Repr

/-- ChatFormatter of the source: one prefix/suffix pair per role. -/
structure ChatFormatter where
  user_template : ChatFormatterPrePost
  assistant_template : ChatFormatterPrePost
  system_template : ChatFormatterPrePost
deriving DecidableEq, Repr

/-- ChatMessage of the source: a role plus textual content. -/
structure ChatMessage where
  role : ChatRole
  content : String
deriving DecidableEq, Repr

/-- ChatDeltaStreamMessage of the source: optional role and optional
content of one streamed chat delta. -/
structure ChatDeltaStreamMessage where
  role : Option ChatRole
  content : Option String
deriving DecidableEq, Repr

/-- CompatChatCompletionRequest of the source: an OpenAI-style chat
completion request body after boundary deserialization. -/
structure CompatChatCompletionRequest where
  messages : List ChatMessage
  best_of : Option Nat
  temperature : Option ℚ
  presence_penalty : Option ℚ
  top_k : Option Int
  top_p : Option ℚ
  typical_p : Option ℚ
  do_sample : Bool
  max_tokens : Nat
  echo : Option Bool
  stop : List String
  truncate : Option Nat
  watermark : Bool
  decoder_input_details : Bool
  seed : Option Nat
  stream : Bool
deriving DecidableEq, Repr

/-- Presence-penalty to repetition-penalty remap, the match written at
both conversion sites of the source (lines 112-115 and 282-285). -/
def remap_presence_penalty (p : Option ℚ) : Option ℚ :=
  match p with
  | some presence_penalty => some ((presence_penalty + 2) / 2)
  | none => none

/-- Conversion From CompatCompletionRequest for GenerateRequest of the
source (lines 109-137). -/
def completion_to_generate_request (req : CompatCompletionRequest) :
    GenerateRequest :=
  { inputs := req.prompt
    parameters :=
      { best_of := req.best_of
        temperature := req.temperature
        repetition_penalty := remap_presence_penalty req.presence_penalty
        top_k := req.top_k
        top_p := req.top_p
        typical_p := req.typical_p
        do_sample := req.do_sample
        max_new_tokens := req.max_tokens
        return_full_text := req.echo
        stop := req.stop
        truncate := req.truncate
        watermark := req.watermark
        details := true
        decoder_input_details := req.decoder_input_details
        seed := req.seed } }

/-- Role-to-template selection, the match inside the message loop of
chat_to_generate_request (source lines 272-276), with the same arms in
the same order. -/
def role_template (formatter : ChatFormatter) (r : ChatRole) :
    ChatFormatterPrePost :=
  match r with
  | ChatRole.Assistant => formatter.assistant_template
  | ChatRole.System => formatter.system_template
  | ChatRole.User => formatter.user_template

/-- Body of the message loop of chat_to_generate_request (source lines
270-280): push the prefix, the content and the suffix of the selected
template onto the accumulated prompt. -/
def chat_step (formatter : ChatFormatter) (prompt : String)
    (m : ChatMessage) : String :=
  let template := role_template formatter m.role
  prompt ++ template.pre ++ m.content ++ template.post

/-- The chat template engine: the message loop of
chat_to_generate_request as a left fold over the messages starting from
the empty string. -/
def chat_prompt (messages : List ChatMessage) (formatter : ChatFormatter) :
    String :=
  messages.foldl (chat_step formatter) ""

/-- chat_to_generate_request of the source (lines 265-307). -/
def chat_to_generate_request (req : CompatChatCompletionRequest)
    (formatter : ChatFormatter) : GenerateRequest :=
  { inputs := chat_prompt req.messages formatter
    parameters :=
      { best_of := req.best_of
        temperature := req.temperature
        repetition_penalty := remap_presence_penalty req.presence_penalty
        top_k := req.top_k
        top_p := req.top_p
        typical_p := req.typical_p
        do_sample := req.do_sample
        max_new_tokens := req.max_tokens
        return_full_text := req.echo
        stop := req.stop
        truncate := req.truncate
        watermark := req.watermark
        details := true
        decoder_input_details := req.decoder_input_details
        seed := req.seed } }

/-- Usage of the source (lines 309-317), all u32 fields. -/
structure Usage where
  total_tokens : Nat
  completion_tokens : Nat
  prompt_tokens : Nat
deriving DecidableEq, Repr

/-- CompletionChoices of the source (lines 319-331). -/
structure CompletionChoices where
  text : String
  finish_reason : Option FinishReason
  logprobs : Option (List Nat)
  index : Nat
deriving DecidableEq, Repr

/-- CompletionsResponse of the source (lines 333-346). -/
structure CompletionsResponse where
  id : String
  object : String
  created : Nat
  model : String
  choices : List CompletionChoices
  usage : Option Usage
deriving DecidableEq, Repr

/-- ChatCompletionChoices of the source (lines 348-357). -/
structure ChatCompletionChoices where
  message : ChatMessage
  finish_reason : Option FinishReason
  index : Nat
deriving DecidableEq, Repr

/-- ChatCompletionDeltaStreamChoices of the source (lines 359-368). -/
structure ChatCompletionDeltaStreamChoices where
  delta : ChatDeltaStreamMessage
  finish_reason : Option FinishReason
  index : Nat
deriving DecidableEq, Repr

/-- ChatCompletionsResponse of the source (lines 370-382). -/
structure ChatCompletionsResponse where
  id : String
  object : String
  created : Nat
  model : String
  choices : List ChatCompletionChoices
  usage : Usage
deriving DecidableEq, Repr

/-- ChatCompletionsStreamResponse of the source (lines 384-395). Note
that it has no usage field at all: a chat stream chunk cannot carry
usage. -/
structure ChatCompletionsStreamResponse where
  id : String
  object : String
  created : Nat
  model : String
  choices : List ChatCompletionDeltaStreamChoices
deriving DecidableEq, Repr

/-- generate_to_completions of the source (lines 440-482). The
created_time argument is the value create_timestamp returned at
synthesis time; the u32 addition and the usize-to-u32 length cast reduce
modulo 2 ^ 32 as in the compiled source. -/
def generate_to_completions (resp : GenerateResponse) (info : Info)
    (created_time : Nat) : CompletionsResponse :=
  let details := resp.details
  let gen_tokens : Nat :=
    match details with
    | some details => details.generated_tokens
    | none => 0
  let finish_reason : Option FinishReason :=
    match details with
    | some details => some details.finish_reason
    | none => none
  let prefill_len : Nat :=
    match details with
    | some details => details.prefill.length % 2 ^ 32
    | none => 0
  let choices : CompletionChoices :=
    { text := resp.generated_text
      finish_reason := finish_reason
      logprobs := none
      index := 0 }
  let usage : Option Usage := some
    { completion_tokens := gen_tokens
      total_tokens := (gen_tokens + prefill_len) % 2 ^ 32
      prompt_tokens := prefill_len }
  { choices := [choices]
    created := created_time
    id := "cmpl-" ++ toString created_time
    object := "text_completion"
    model := info.model_id
    usage := usage }

/-- generate_to_chatcompletions of the source (lines 484-528), with the
same conventions as generate_to_completions. -/
def generate_to_chatcompletions (resp : GenerateResponse) (info : Info)
    (created_time : Nat) : ChatCompletionsResponse :=
  let details := resp.details
  let gen_tokens : Nat :=
    match details with
    | some details => details.generated_tokens
    | none => 0
  let finish_reason : Option FinishReason :=
    match details with
    | some details => some details.finish_reason
    | none => none
  let prefill_len : Nat :=
    match details with
    | some details => details.prefill.length % 2 ^ 32
    | none => 0
  let choices : ChatCompletionChoices :=
    { message :=
        { role := ChatRole.Assistant
          content := resp.generated_text }
      finish_reason := finish_reason
      index := 0 }
  let usage : Usage :=
    { completion_tokens := gen_tokens
      total_tokens := (gen_tokens + prefill_len) % 2 ^ 32
      prompt_tokens := prefill_len }
  { choices := [choices]
    created := created_time
    id := "chatcmpl-" ++ toString created_time
    object := "chat.completion"
    model := info.model_id
    usage := usage }

/-- OpenaiStreamType of the crate root: the two-variant stream-kind
selector matched by create_streaming_event. -/
inductive OpenaiStreamType where
  | ChatCompletionsStreamResponse
  | CompletionsResponse
deriving DecidableEq, Repr

/-- Payload of one server-sent event produced by the streaming builder:
the JSON body handed to Event json_data in the source, either a chat
completion chunk or a completions chunk. -/
inductive StreamEvent where
  | chat : ChatCompletionsStreamResponse → StreamEvent
  | completion : CompletionsResponse → StreamEvent
deriving DecidableEq, Repr

/-- chat_start_message of the source (lines 537-556). -/
def chat_start_message (created_time : Nat) (model_name : String) :
    ChatCompletionsStreamResponse :=
  let choices : ChatCompletionDeltaStreamChoices :=
    { delta :=
        { content := none
          role := some ChatRole.Assistant }
      finish_reason := none
      index := 0 }
  { choices := [choices]
    created := created_time
    id := "chatcmpl-" ++ toString created_time
    object := "chat.completion.chunk"
    model := model_name }

/-- create_streaming_event of the source (lines 558-609), returning the
JSON payload of the built event. -/
def create_streaming_event (stream_type : OpenaiStreamType)
    (created_time : Nat) (details : Option StreamDetails) (token : Token)
    (model_name : String) : StreamEvent :=
  match stream_type with
  | OpenaiStreamType.ChatCompletionsStreamResponse =>
    let choices : ChatCompletionDeltaStreamChoices :=
      { delta :=
          { content := some token.text
            role := none }
        finish_reason :=
          match details with
          | some i => some i.finish_reason
          | none => none
        index := 0 }
    StreamEvent.chat
      { choices := [choices]
        created := created_time
        id := "chatcmpl-" ++ toString created_time
        object := "chat.completion.chunk"
        model := model_name }
  | OpenaiStreamType.CompletionsResponse =>
    let choices : CompletionChoices :=
      { text := token.text
        finish_reason :=
          match details with
          | some i => some i.finish_reason
          | none => none
        logprobs := none
        index := 0 }
    StreamEvent.completion
      { choices := [choices]
        created := created_time
        id := "cmpl-" ++ toString created_time
        object := "text_completion"
        model := model_name
        usage := none }

/-- Generated-token count extracted from a native response, zero when
the details record is absent (the extraction at source lines 447-450). -/
def response_gen_tokens (resp : GenerateResponse) : Nat :=
  match resp.details with
  | some d => d.generated_tokens
  | none => 0

/-- Prefill length extracted from a native response, zero when the
details record is absent (the extraction at source lines 455-458,
before the u32 cast). -/
def response_prefill_len (resp : GenerateResponse) : Nat :=
  match resp.details with
  | some d => d.prefill.length
  | none => 0

/-- List of choice indices of a streaming event payload, for either
variant. -/
def StreamEvent.choice_indices : StreamEvent → List Nat
  | StreamEvent.chat r => r.choices.map ChatCompletionDeltaStreamChoices.index
  | StreamEvent.completion r => r.choices.map CompletionChoices.index

/-- Number of choices of a streaming event payload. -/
def StreamEvent.choice_count : StreamEvent → Nat
  | StreamEvent.chat r => r.choices.length
  | StreamEvent.completion r => r.choices.length

/-- Chat chunk choices of a streaming event payload, when it is the chat
variant. -/
def StreamEvent.chat_choices :
    StreamEvent → Option (List ChatCompletionDeltaStreamChoices)
  | StreamEvent.chat r => some r.choices
  | StreamEvent.completion _ => none

/-- Usage field of a streaming event payload, when it is the completions
variant (the chat variant has no usage field at all). -/
def StreamEvent.completion_usage : StreamEvent → Option (Option Usage)
  | StreamEvent.chat _ => none
  | StreamEvent.completion r => some r.usage

/-- Identifier of a streaming event payload. -/
def StreamEvent.event_id : StreamEvent → String
  | StreamEvent.chat r => r.id
  | StreamEvent.completion r => r.id

/-- Object tag of a streaming event payload. -/
def StreamEvent.event_object : StreamEvent → String
  | StreamEvent.chat r => r.object
  | StreamEvent.completion r => r.object

/-- Creation timestamp of a streaming event payload. -/
def StreamEvent.event_created : StreamEvent → Nat
  | StreamEvent.chat r => r.created
  | StreamEvent.completion r => r.created

/-- Model identifier of a streaming event payload. -/
def StreamEvent.event_model : StreamEvent → String
  | StreamEvent.chat r => r.model
  | StreamEvent.completion r => r.model

/-- Sample formatter used by concrete evaluations. -/
def sample_formatter : ChatFormatter :=
  { user_template := ⟨"u<", ">u"⟩
    assistant_template := ⟨"a<", ">a"⟩
    system_template := ⟨"s<", ">s"⟩ }

/-- Sample info provider used by concrete evaluations. -/
def sample_info : Info := { model_id := "tgi" }

/-- Sample token used by concrete evaluations. -/
def sample_token : Token := { id := 42, text := "there" }

/-- Sample native response with a details record: three generated
tokens, finish reason Length, two prefill tokens. -/
def sample_generate_response : GenerateResponse :=
  { generated_text := "Hi there"
    details := some
      { generated_tokens := 3
        finish_reason := FinishReason.Length
        prefill := [{ id := 1, text := "Hi" }, { id := 2, text := "!" }] } }

/-- Sample native response carrying no details record. -/
def no_details_response : GenerateResponse :=
  { generated_text := "hello", details := none }

/-- Native response whose u32 generated-token count is at the top of the
u32 range while one prefill token is present, so the u32 addition in the
usage computation wraps. -/
def overflow_generate_response : GenerateResponse :=
  { generated_text := ""
    details := some
      { generated_tokens := 2 ^ 32 - 1
        finish_reason := FinishReason.Length
        prefill := [{ id := 0, text := "t" }] } }

/-- Join of a cons, on strings. -/
theorem string_join_cons (s : String) (l : List String) :
    String.join (s :: l) = s ++ String.join l := by
  apply String.ext
  simp

/-- Folding the chat loop from an arbitrary accumulator prepends that
accumulator to the fold from the empty string. -/
theorem chat_foldl_acc (formatter : ChatFormatter) (ms : List ChatMessage)
    (s : String) :
    ms.foldl (chat_step formatter) s =
      s ++ ms.foldl (chat_step formatter) "" := by
  induction ms generalizing s with
  | nil => simp [String.append_empty]
  | cons m ms ih =>
    rw [List.foldl_cons, List.foldl_cons, ih (chat_step formatter s m),
      ih (chat_step formatter "" m)]
    simp [chat_step, String.append_assoc, String.empty_append]

/-- The chat prompt of an empty message list is empty. -/
theorem chat_prompt_nil (formatter : ChatFormatter) :
    chat_prompt [] formatter = "" := rfl

/-- The chat prompt of a cons is the formatted head followed by the chat
prompt of the tail. -/
theorem chat_prompt_cons (formatter : ChatFormatter) (m : ChatMessage)
    (ms : List ChatMessage) :
    chat_prompt (m :: ms) formatter =
      (role_template formatter m.role).pre ++ m.content ++
        (role_template formatter m.role).post ++ chat_prompt ms formatter := by
  rw [chat_prompt, List.foldl_cons, chat_foldl_acc]
  simp [chat_step, chat_prompt, String.empty_append, String.append_assoc]

/-- C1: for every inbound request (completion or chat), the normalizer
maps the optional presence penalty to the native repetition penalty by
native = (presence + 2) / 2, so 0 yields 1, 2 yields 2, -2 yields 0, an
absent presence penalty yields an absent repetition penalty, and the map
is monotone in the input. -/
theorem presence_penalty_remap_spec :
    (∀ req : CompatCompletionRequest,
      (completion_to_generate_request req).parameters.repetition_penalty =
        remap_presence_penalty req.presence_penalty) ∧
    (∀ (req : CompatChatCompletionRequest) (formatter : ChatFormatter),
      (chat_to_generate_request req formatter).parameters.repetition_penalty =
        remap_presence_penalty req.presence_penalty) ∧
    (∀ p : ℚ, remap_presence_penalty (some p) = some ((p + 2) / 2)) ∧
    remap_presence_penalty (some 0) = some 1 ∧
    remap_presence_penalty (some 2) = some 2 ∧
    remap_presence_penalty (some (-2)) = some 0 ∧
    remap_presence_penalty none = none ∧
    (∀ p q : ℚ, p ≤ q → ∀ a b : ℚ,
      remap_presence_penalty (some p) = some a →
      remap_presence_penalty (some q) = some b → a ≤ b) := by
  refine ⟨fun req => rfl, fun req formatter => rfl, fun p => rfl,
    ?_, ?_, ?_, rfl, ?_⟩
  · simp [remap_presence_penalty]
  · simp [remap_presence_penalty]
  · simp [remap_presence_penalty]
  · intro p q hpq a b ha hb
    simp only [remap_presence_penalty, Option.some.injEq] at ha hb
    rw [← ha, ← hb]
    have h2 : (0 : ℚ) < 2 := by norm_num
    exact (div_le_div_iff_of_pos_right h2).mpr (by linarith)

/-- Witness for presence_penalty_remap_spec at concrete inputs 0 and 1. -/
theorem presence_penalty_remap_spec_witness :
    (0 : ℚ) ≤ 1 ∧
    remap_presence_penalty (some 0) = some 1 ∧
    remap_presence_penalty (some 1) = some (3 / 2) ∧
    (1 : ℚ) ≤ 3 / 2 := by
  have h := presence_penalty_remap_spec
  refine ⟨by norm_num, h.2.2.2.1, ?_, ?_⟩
  · rw [h.2.2.1 1]
    norm_num
  · refine h.2.2.2.2.2.2.2 0 1 (by norm_num) 1 (3 / 2) h.2.2.2.1 ?_
    rw [h.2.2.1 1]
    norm_num

/-- C2: for every ordered message list and every formatter, the chat
template engine produces exactly the left-to-right concatenation, in
input order, of prefix, content and suffix per message using the pair of
that message role; the empty list yields the empty string, and the
three-message list system, user, assistant yields exactly the
corresponding nine-part concatenation. -/
theorem chat_linearization_spec :
    (∀ (msgs : List ChatMessage) (formatter : ChatFormatter),
      chat_prompt msgs formatter = String.join (msgs.map (fun m =>
        (role_template formatter m.role).pre ++ m.content ++
          (role_template formatter m.role).post))) ∧
    (∀ formatter : ChatFormatter, chat_prompt [] formatter = "") ∧
    (∀ (formatter : ChatFormatter) (c1 c2 c3 : String),
      chat_prompt [⟨ChatRole.System, c1⟩, ⟨ChatRole.User, c2⟩,
          ⟨ChatRole.Assistant, c3⟩] formatter =
        formatter.system_template.pre ++ c1 ++ formatter.system_template.post ++
        formatter.user_template.pre ++ c2 ++ formatter.user_template.post ++
        formatter.assistant_template.pre ++ c3 ++
        formatter.assistant_template.post) ∧
    (∀ (req : CompatChatCompletionRequest) (formatter : ChatFormatter),
      (chat_to_generate_request req formatter).inputs =
        chat_prompt req.messages formatter) := by
  refine ⟨?_, fun formatter => rfl, ?_, fun req formatter => rfl⟩
  · intro msgs formatter
    induction msgs with
    | nil => rfl
    | cons m ms ih =>
      rw [chat_prompt_cons, List.map_cons, string_join_cons, ih]
  · intro formatter c1 c2 c3
    simp [chat_prompt_cons, chat_prompt_nil, role_template,
      String.append_empty, String.append_assoc]

/-- C9: chat linearization is a monoid homomorphism from message lists
to strings: linearizing an appended pair of lists is the concatenation
of the linearizations. -/
theorem chat_prompt_append_hom (formatter : ChatFormatter)
    (m1 m2 : List ChatMessage) :
    chat_prompt (m1 ++ m2) formatter =
      chat_prompt m1 formatter ++ chat_prompt m2 formatter := by
  induction m1 with
  | nil => simp [chat_prompt_nil, String.empty_append]
  | cons m ms ih =>
    rw [List.cons_append, chat_prompt_cons, chat_prompt_cons, ih]
    simp [String.append_assoc]

/-- Counterexample to C3 as stated: the usage fields are u32 values, and
the source adds the generated-token count and the prefill length with
wrapping u32 addition, so at the top of the u32 range the synthesized
total_tokens is not the exact sum of completion_tokens and
prompt_tokens. -/
theorem usage_total_exact_counterexample :
    (generate_to_completions overflow_generate_response sample_info 0).usage.map
        Usage.total_tokens = some 0 ∧
    (generate_to_completions overflow_generate_response sample_info 0).usage.map
        Usage.completion_tokens = some (2 ^ 32 - 1) ∧
    (generate_to_completions overflow_generate_response sample_info 0).usage.map
        Usage.prompt_tokens = some 1 ∧
    (generate_to_completions overflow_generate_response sample_info 0).usage.map
        Usage.total_tokens ≠
      (generate_to_completions overflow_generate_response sample_info 0).usage.map
        (fun u => u.completion_tokens + u.prompt_tokens) := by
  refine ⟨rfl, rfl, rfl, ?_⟩
  decide

/-- C3 (amended): for every synthesized non-streaming response,
completion_tokens is the generated-token count, prompt_tokens is the
prefill length and total_tokens is their exact sum, whenever that sum
fits in u32 (in general the u32 arithmetic of the source wraps modulo
2 ^ 32). -/
theorem usage_total_exact (resp : GenerateResponse) (info : Info)
    (created_time : Nat)
    (h : ∀ d, resp.details = some d →
      d.generated_tokens + d.prefill.length < 2 ^ 32) :
    (generate_to_completions resp info created_time).usage =
      some { total_tokens := response_gen_tokens resp + response_prefill_len resp
             completion_tokens := response_gen_tokens resp
             prompt_tokens := response_prefill_len resp } ∧
    (generate_to_chatcompletions resp info created_time).usage =
      { total_tokens := response_gen_tokens resp + response_prefill_len resp
        completion_tokens := response_gen_tokens resp
        prompt_tokens := response_prefill_len resp } := by
  cases hd : resp.details with
  | none =>
    constructor <;>
      simp [generate_to_completions, generate_to_chatcompletions,
        response_gen_tokens, response_prefill_len, hd]
  | some d =>
    have hlt := h d hd
    have hp : d.prefill.length % 2 ^ 32 = d.prefill.length :=
      Nat.mod_eq_of_lt (by omega)
    constructor <;>
      simp [generate_to_completions, generate_to_chatcompletions,
        response_gen_tokens, response_prefill_len, hd, hp,
        Nat.mod_eq_of_lt hlt] <;>
      omega

/-- Witness for usage_total_exact at a concrete response with three
generated tokens and two prefill tokens. -/
theorem usage_total_exact_witness :
    (generate_to_completions sample_generate_response sample_info 7).usage =
      some { total_tokens := 5, completion_tokens := 3, prompt_tokens := 2 } ∧
    (generate_to_chatcompletions sample_generate_response sample_info 7).usage =
      { total_tokens := 5, completion_tokens := 3, prompt_tokens := 2 } := by
  have h := usage_total_exact sample_generate_response sample_info 7
    (by
      intro d hd
      simp only [sample_generate_response, Option.some.injEq] at hd
      subst hd
      decide)
  simpa [response_gen_tokens, response_prefill_len,
    sample_generate_response] using h

/-- C4: when the native details record is absent, synthesis still
succeeds (both synthesis functions are total) and produces all-zero
usage and an absent finish reason, for both response shapes. -/
theorem missing_details_zero_usage (resp : GenerateResponse) (info : Info)
    (created_time : Nat) (h : resp.details = none) :
    (generate_to_completions resp info created_time).usage =
      some { total_tokens := 0, completion_tokens := 0, prompt_tokens := 0 } ∧
    ((generate_to_completions resp info created_time).choices.map
      CompletionChoices.finish_reason) = [none] ∧
    (generate_to_chatcompletions resp info created_time).usage =
      { total_tokens := 0, completion_tokens := 0, prompt_tokens := 0 } ∧
    ((generate_to_chatcompletions resp info created_time).choices.map
      ChatCompletionChoices.finish_reason) = [none] := by
  refine ⟨?_, ?_, ?_, ?_⟩ <;>
    simp [generate_to_completions, generate_to_chatcompletions, h]

/-- Witness for missing_details_zero_usage at a concrete response
without details. -/
theorem missing_details_zero_usage_witness :
    (generate_to_completions no_details_response sample_info 5).usage =
      some { total_tokens := 0, completion_tokens := 0, prompt_tokens := 0 } ∧
    ((generate_to_completions no_details_response sample_info 5).choices.map
      CompletionChoices.finish_reason) = [none] ∧
    (generate_to_chatcompletions no_details_response sample_info 5).usage =
      { total_tokens := 0, completion_tokens := 0, prompt_tokens := 0 } ∧
    ((generate_to_chatcompletions no_details_response sample_info 5).choices.map
      ChatCompletionChoices.finish_reason) = [none] :=
  missing_details_zero_usage no_details_response sample_info 5 rfl

/-- C5: for every inbound request the produced native GenerateRequest
has details forced to true regardless of caller input, its inputs field
equal to the prompt verbatim (completion path) or to the linearized
message list (chat path), and every other decoding option copied field
for field; both normalizers are total functions, so normalization never
fails. -/
theorem normalization_field_map_spec :
    (∀ req : CompatCompletionRequest,
      completion_to_generate_request req =
        { inputs := req.prompt
          parameters :=
            { best_of := req.best_of
              temperature := req.temperature
              repetition_penalty := remap_presence_penalty req.presence_penalty
              top_k := req.top_k
              top_p := req.top_p
              typical_p := req.typical_p
              do_sample := req.do_sample
              max_new_tokens := req.max_tokens
              return_full_text := req.echo
              stop := req.stop
              truncate := req.truncate
              watermark := req.watermark
              details := true
              decoder_input_details := req.decoder_input_details
              seed := req.seed } }) ∧
    (∀ (req : CompatChatCompletionRequest) (formatter : ChatFormatter),
      chat_to_generate_request req formatter =
        { inputs := chat_prompt req.messages formatter
          parameters :=
            { best_of := req.best_of
              temperature := req.temperature
              repetition_penalty := remap_presence_penalty req.presence_penalty
              top_k := req.top_k
              top_p := req.top_p
              typical_p := req.typical_p
              do_sample := req.do_sample
              max_new_tokens := req.max_tokens
              return_full_text := req.echo
              stop := req.stop
              truncate := req.truncate
              watermark := req.watermark
              details := true
              decoder_input_details := req.decoder_input_details
              seed := req.seed } }) :=
  ⟨fun req => rfl, fun req formatter => rfl⟩

/-- C6: in every chat stream the first emitted event carries role
assistant, absent content, absent finish reason, at index 0; every
per-token chat event carries absent role and present content equal to
the token text, with finish reason present exactly when the per-token
detail record is present; and usage is never attached to a streaming
chunk: the chat chunk shape has no usage field at all, and the streamed
completions chunk is built with usage none. -/
theorem chat_stream_event_spec :
    ∀ (created_time : Nat) (model_name : String) (token : Token)
      (details : Option StreamDetails),
      (chat_start_message created_time model_name).choices =
        [{ delta := { role := some ChatRole.Assistant, content := none }
           finish_reason := none
           index := 0 }] ∧
      (create_streaming_event OpenaiStreamType.ChatCompletionsStreamResponse
          created_time details token model_name).chat_choices =
        some [{ delta := { role := none, content := some token.text }
                finish_reason := details.map StreamDetails.finish_reason
                index := 0 }] ∧
      (details.map StreamDetails.finish_reason).isSome = details.isSome ∧
      (create_streaming_event OpenaiStreamType.CompletionsResponse
          created_time details token model_name).completion_usage =
        some none := by
  intro created_time model_name token details
  cases details with
  | none => exact ⟨rfl, rfl, rfl, rfl⟩
  | some d => exact ⟨rfl, rfl, rfl, rfl⟩

/-- C7: every synthesized non-streaming response has identifier equal to
the literal protocol tag cmpl- or chatcmpl- followed by the decimal
rendering of the Unix-seconds timestamp taken at synthesis time, a
created field equal to that same timestamp, and the protocol-mandated
object literal. -/
theorem response_framing_spec :
    ∀ (resp : GenerateResponse) (info : Info) (created_time : Nat),
      (generate_to_completions resp info created_time).id =
        "cmpl-" ++ toString created_time ∧
      (generate_to_completions resp info created_time).created =
        created_time ∧
      (generate_to_completions resp info created_time).object =
        "text_completion" ∧
      (generate_to_chatcompletions resp info created_time).id =
        "chatcmpl-" ++ toString created_time ∧
      (generate_to_chatcompletions resp info created_time).created =
        created_time ∧
      (generate_to_chatcompletions resp info created_time).object =
        "chat.completion" :=
  fun resp info created_time => ⟨rfl, rfl, rfl, rfl, rfl, rfl⟩

/-- C8: every response and streaming event constructed by this layer has
a choices list of length exactly 1 whose single choice has index 0. -/
theorem single_choice_spec :
    ∀ (resp : GenerateResponse) (info : Info) (created_time : Nat)
      (model_name : String) (token : Token)
      (details : Option StreamDetails) (stream_type : OpenaiStreamType),
      (generate_to_completions resp info created_time).choices.length = 1 ∧
      ((generate_to_completions resp info created_time).choices.map
        CompletionChoices.index) = [0] ∧
      (generate_to_chatcompletions resp info created_time).choices.length
        = 1 ∧
      ((generate_to_chatcompletions resp info created_time).choices.map
        ChatCompletionChoices.index) = [0] ∧
      (chat_start_message created_time model_name).choices.length = 1 ∧
      ((chat_start_message created_time model_name).choices.map
        ChatCompletionDeltaStreamChoices.index) = [0] ∧
      (create_streaming_event stream_type created_time details token
        model_name).choice_count = 1 ∧
      (create_streaming_event stream_type created_time details token
        model_name).choice_indices = [0] := by
  intro resp info created_time model_name token details stream_type
  cases stream_type <;>
    exact ⟨rfl, rfl, rfl, rfl, rfl, rfl, rfl, rfl⟩

/-- C10: the chat stream-start event and every per-token chat event
built with the same created_time and model agree on their id, object,
created and model fields, so all chunks of one chat stream share
identical framing metadata. -/
theorem chat_stream_framing_spec :
    ∀ (created_time : Nat) (model_name : String) (token : Token)
      (details : Option StreamDetails),
      (chat_start_message created_time model_name).id =
        (create_streaming_event OpenaiStreamType.ChatCompletionsStreamResponse
          created_time details token model_name).event_id ∧
      (chat_start_message created_time model_name).id =
        "chatcmpl-" ++ toString created_time ∧
      (chat_start_message created_time model_name).object =
        (create_streaming_event OpenaiStreamType.ChatCompletionsStreamResponse
          created_time details token model_name).event_object ∧
      (chat_start_message created_time model_name).object =
        "chat.completion.chunk" ∧
      (chat_start_message created_time model_name).created =
        (create_streaming_event OpenaiStreamType.ChatCompletionsStreamResponse
          created_time details token model_name).event_created ∧
      (chat_start_message created_time model_name).created = created_time ∧
      (chat_start_message created_time model_name).model =
        (create_streaming_event OpenaiStreamType.ChatCompletionsStreamResponse
          created_time details token model_name).event_model ∧
      (chat_start_message created_time model_name).model = model_name :=
  fun created_time model_name token details =>
    ⟨rfl, rfl, rfl, rfl, rfl, rfl, rfl, rfl⟩
